import Mathlib

/-!
# Verification of the ADetailer post-processing pipeline

A shallow embedding of `scripts/!adetailer.py` (the After Detailer extension
for the Stable Diffusion web UI).  The embedding models the orchestration
core of the script:

* `get_ultralytics_device` — detection-device selection policy;
* `get_prompt`, `get_seed`, `get_width_height`, `get_steps`, `get_cfg_scale`
  — parameter resolution for a regeneration sub-job;
* `script_filter` — always-on extension filtering;
* `get_i2i_p` — construction of the img2img sub-job (RegenerationJobBuilder);
* `get_ad_model` — detector-model registry lookup;
* `_postprocess_image` — per-ArgumentSet detection + sequential inpainting;
* `is_ad_enabled`, `get_args`, `process`, `postprocess_image` — entry points.

External collaborators (the regeneration engine `process_images`, the two
detection backends `mediapipe_predict` / `ultralytics_predict`, the mask
post-processor `mask_preprocess` from `adetailer.common`, the pydantic
`ADetailerArgs` constructor, `enable_check`, and the ControlNet extension)
are modelled as components of an `Env` record: they are opaque functions
supplied by the environment, exactly as the spec treats them (interfaces
only).  Images and masks are abstract tokens (`Nat`); the pipeline never
inspects pixels, it only threads image values between calls.

Python `float` fields (denoising strength, CFG scale, ControlNet weight,
subseed strength) are carried as `Rat`: the script only copies these values,
it never computes with them.  Python `int` seeds are `Int` (they may be -1,
meaning "random").  Python `%` on integers agrees with `Nat` `%` at the
non-negative indices that occur here.
-/

deriving instance DecidableEq for Except

/-- Abstract image token: the pipeline threads images between calls without
inspecting them. -/
abbrev Image := Nat

/-- Abstract processed-mask token (output of the external `mask_preprocess`). -/
abbrev Mask := Nat

/-- Abstract raw detector mask token (element of `pred.masks`). -/
abbrev RawMask := Nat

/-- Normalized detector output: `.masks` and `.preview`
(`PredictOutput` of the external backends). -/
structure PredictOutput where
  masks : List RawMask
  preview : Option Image
deriving DecidableEq

/-- Python `s.split(sep)` for a one-character separator: split at every
occurrence, keeping empty pieces (`"a,,b" ↦ ["a", "", "b"]`,
`"" ↦ [""]`). -/
def pySplitAux (sep : Char) : List Char → List Char → List String
  | [], acc => [String.mk acc.reverse]
  | c :: rest, acc =>
    if c = sep then String.mk acc.reverse :: pySplitAux sep rest []
    else pySplitAux sep rest (c :: acc)

/-- Python `s.split(sep)` (one-character separator). -/
def pySplit (sep : Char) (s : String) : List String := pySplitAux sep s.data []

/-- Python `s.strip()`: drop leading and trailing whitespace. -/
def pyStrip (s : String) : String :=
  String.mk
    (((s.data.dropWhile Char.isWhitespace).reverse.dropWhile
        Char.isWhitespace).reverse)

/-- Python `s.lower()` (ASCII, which covers every name used here). -/
def pyLower (s : String) : String := String.mk (s.data.map Char.toLower)

/-- Python `s.startswith(pre)`. -/
def pyStartsWith (s pre : String) : Bool := pre.data.isPrefixOf s.data

/-- Python `sep.join(pieces)`. -/
def pyJoin (sep : String) : List String → String
  | [] => ""
  | [x] => x
  | x :: y :: rest => x ++ sep ++ pyJoin sep (y :: rest)

/-- One validated per-stage configuration (the pydantic `ADetailerArgs`
model, imported by the script; fields as used by the script). Construction
and range validation happen in the external constructor (`Env.mkArgs`). -/
structure ADetailerArgs where
  ad_model : String
  ad_prompt : String
  ad_negative_prompt : String
  ad_conf : Nat
  ad_dilate_erode : Int
  ad_x_offset : Int
  ad_y_offset : Int
  ad_mask_blur : Nat
  ad_denoising_strength : Rat
  ad_inpaint_full_res : Bool
  ad_inpaint_full_res_padding : Nat
  ad_use_inpaint_width_height : Bool
  ad_inpaint_width : Nat
  ad_inpaint_height : Nat
  ad_use_steps : Bool
  ad_steps : Nat
  ad_use_cfg_scale : Bool
  ad_cfg_scale : Rat
  ad_controlnet_model : String
  ad_controlnet_weight : Rat
deriving DecidableEq

/-- The caller's processing context `p` (`StableDiffusionProcessing`), with
the fields the script reads or writes.  `_idx` models the dynamically
attached attribute `p._idx` (`none` = attribute absent, read through
`getattr(p, "_idx", -1)`); `_disable_adetailer` models
`getattr(p, "_disable_adetailer", False)`.  `scripts_alwayson` holds the
filename stems of `p.scripts.alwayson_scripts` (the script only ever looks
at `Path(script.filename).stem`, so a script object is represented by that
stem).  `script_args` is an opaque payload token (the script only copies it
and hands it to the ControlNet extension). -/
structure P where
  _idx : Option Nat
  prompt : String
  negative_prompt : String
  all_prompts : List String
  all_negative_prompts : List String
  seed : Int
  subseed : Int
  all_seeds : List Int
  all_subseeds : List Int
  subseed_strength : Rat
  seed_resize_from_h : Int
  seed_resize_from_w : Int
  sampler_name : String
  steps : Nat
  cfg_scale : Rat
  width : Nat
  height : Nat
  styles : List String
  tiling : Bool
  sd_model : Nat
  outpath_samples : String
  outpath_grids : String
  extra_generation_params : List (String × String)
  scripts_alwayson : List String
  script_args : Nat
  _disable_adetailer : Bool
deriving DecidableEq

/-- The regeneration sub-job (`StableDiffusionProcessingImg2Img`) built by
`get_i2i_p` and mutated in the mask loop.  The constructor argument `mask`
and the later-assigned attribute `image_mask` are the same underlying slot
in the web UI, modelled as the single field `image_mask`.  `scripts` holds
the filename stems of the filtered always-on scripts. -/
structure I2I where
  init_images : List Image
  resize_mode : Nat
  denoising_strength : Rat
  image_mask : Option Mask
  mask_blur : Nat
  inpainting_fill : Nat
  inpaint_full_res : Bool
  inpaint_full_res_padding : Nat
  inpainting_mask_invert : Nat
  sd_model : Nat
  outpath_samples : String
  outpath_grids : String
  prompt : String
  negative_prompt : String
  styles : List String
  seed : Int
  subseed : Int
  subseed_strength : Rat
  seed_resize_from_h : Int
  seed_resize_from_w : Int
  sampler_name : String
  batch_size : Nat
  n_iter : Nat
  steps : Nat
  cfg_scale : Rat
  width : Nat
  height : Nat
  tiling : Bool
  extra_generation_params : List (String × String)
  do_not_save_samples : Bool
  do_not_save_grid : Bool
  scripts : List String
  script_args : Nat
  _disable_adetailer : Bool
deriving DecidableEq

/-- One element of the variadic `*args_` received by the entry points:
either the leading enable checkbox (a Python `bool`) or one per-stage
state mapping (an opaque payload decoded by the external `ADetailerArgs`
constructor). -/
inductive AdRawArg where
  | boolArg : Bool → AdRawArg
  | mappingArg : List (String × String) → AdRawArg
deriving DecidableEq

/-- Python `isinstance(x, bool)`. -/
def AdRawArg.isBool : AdRawArg → Bool
  | .boolArg _ => true
  | .mappingArg _ => false

/-- The web-UI options the script reads (`opts.data.get` with defaults). -/
structure Opts where
  ad_only_seleted_scripts : Bool
  ad_script_names : String
deriving DecidableEq

/-- The external collaborators, treated as opaque functions:
* `engine j` — `process_images(j).images[0]`, the regeneration engine's
  output image for job `j`;
* `mediapipe_predict name image conf` — the geometric-landmark backend;
* `ultralytics_predict path image conf device` — the generic-object backend
  (`path` is the registry entry for the model name);
* `mask_preprocess` — `adetailer.common.mask_preprocess`;
* `model_mapping` — the registry built by `get_models` at startup
  (ordered name ↦ path associations);
* `mkArgs` — the pydantic constructor `ADetailerArgs(**d)`;
* `enable_check` — `adetailer.enable_check`;
* `extra_params` — `ADetailerArgs.extra_params` aggregation used by
  `process`;
* `cn_update args payload` — `ControlNetExt.update_scripts_args`, which
  rewrites the opaque `script_args` payload. -/
structure Env where
  engine : I2I → Image
  mediapipe_predict : String → Image → Nat → PredictOutput
  ultralytics_predict : String → Image → Nat → String → PredictOutput
  mask_preprocess : List RawMask → List Mask
  model_mapping : List (String × String)
  mkArgs : List (String × String) → Except String ADetailerArgs
  enable_check : List AdRawArg → Bool
  extra_params : List ADetailerArgs → List (String × String)
  cn_update : ADetailerArgs → Nat → Nat

/-- Source helper `ordinal(n)`: `1st`, `2nd`, `3rd`, `4th`, …, `11th`, `12th`, `13th`, … -/
def ordinal (n : Nat) : String :=
  toString n ++
    (if 11 ≤ n % 100 ∧ n % 100 ≤ 13 then "th"
     else if n % 10 = 1 then "st"
     else if n % 10 = 2 then "nd"
     else if n % 10 = 3 then "rd"
     else "th")

/-- Python `repr` of a plain string (no escaping needed for the names that
occur here): the string wrapped in single quotes. -/
def pyRepr (s : String) : String := "\x27" ++ s ++ "\x27"

/-- Python `repr` of a list of strings: `[` … comma-separated `pyRepr`s … `]`. -/
def pyReprList (l : List String) : String :=
  "[" ++ pyJoin ", " (l.map pyRepr) ++ "]"

/-- Source `get_ultralytics_device`, with the ambient inputs made explicit:
`system` is `platform.system()`, and `lowvram` / `medvram` are the
corresponding `cmd_opts` flags. -/
def get_ultralytics_device (system : String) (lowvram medvram : Bool) : String :=
  let device := ""
  if system = "Darwin" then device
  else
    let device := if lowvram || medvram then "cpu" else device
    device

/-- The attribute `p._idx` as read by the helper functions (the orchestrator always sets
it before they run; `0` stands in for the unreachable unset read). -/
def P.idx (p : P) : Nat := p._idx.getD 0

/-- Source `get_prompt(p, args)`. -/
def get_prompt (p : P) (args : ADetailerArgs) : String × String :=
  let i := p.idx
  let prompt :=
    if args.ad_prompt ≠ "" then args.ad_prompt
    else if p.all_prompts = [] then p.prompt
    else if i < p.all_prompts.length then p.all_prompts.getD i ""
    else p.all_prompts.getD (i % p.all_prompts.length) ""
  let negative_prompt :=
    if args.ad_negative_prompt ≠ "" then args.ad_negative_prompt
    else if p.all_negative_prompts = [] then p.negative_prompt
    else if i < p.all_negative_prompts.length then p.all_negative_prompts.getD i ""
    else p.all_negative_prompts.getD (i % p.all_negative_prompts.length) ""
  (prompt, negative_prompt)

/-- Source `get_seed(p)`. -/
def get_seed (p : P) : Int × Int :=
  let i := p.idx
  let seed :=
    if p.all_seeds = [] then p.seed
    else if i < p.all_seeds.length then p.all_seeds.getD i 0
    else p.all_seeds.getD (i % p.all_seeds.length) 0
  let subseed :=
    if p.all_subseeds = [] then p.subseed
    else if i < p.all_subseeds.length then p.all_subseeds.getD i 0
    else p.all_subseeds.getD (i % p.all_subseeds.length) 0
  (seed, subseed)

/-- Source `get_width_height(p, args)`. -/
def get_width_height (p : P) (args : ADetailerArgs) : Nat × Nat :=
  if args.ad_use_inpaint_width_height then
    (args.ad_inpaint_width, args.ad_inpaint_height)
  else (p.width, p.height)

/-- Source `get_steps(p, args)`. -/
def get_steps (p : P) (args : ADetailerArgs) : Nat :=
  if args.ad_use_steps then args.ad_steps else p.steps

/-- Source `get_cfg_scale(p, args)`. -/
def get_cfg_scale (p : P) (args : ADetailerArgs) : Rat :=
  if args.ad_use_cfg_scale then args.ad_cfg_scale else p.cfg_scale

/-- Source `script_filter(p, args)`: keep only the always-on scripts (represented
by filename stem) whose name is in the configured allow-list (names taken
both raw and stripped), plus `controlnet` when a ControlNet model is
selected. -/
def script_filter (opts : Opts) (p : P) (args : ADetailerArgs) : List String :=
  let script_runner := p.scripts_alwayson
  if ¬ opts.ad_only_seleted_scripts then script_runner
  else
    let script_names_set :=
      (pySplit (Char.ofNat 44) opts.ad_script_names).flatMap
        (fun script_name => [script_name, pyStrip script_name])
    let script_names_set :=
      if args.ad_controlnet_model ≠ "None" then "controlnet" :: script_names_set
      else script_names_set
    script_runner.filter (fun stem => script_names_set.contains stem)

/-- Source `update_controlnet_args(i2i, args)`: the external
`ControlNetExt.update_scripts_args` call rewrites the opaque `script_args`
payload of the sub-job (availability checks folded into `Env.cn_update`). -/
def update_controlnet_args (env : Env) (i2i : I2I) (args : ADetailerArgs) : I2I :=
  { i2i with script_args := env.cn_update args i2i.script_args }

/-- Source `get_i2i_p(p, args, image)`: the RegenerationJobBuilder.  Builds the
single-image, single-iteration img2img sub-job from the parent context, one
ArgumentSet and the current working image, then attaches the filtered
script runner, a copy of the parent's script args, and the
`_disable_adetailer` recursion-guard marker. -/
def get_i2i_p (env : Env) (opts : Opts) (p : P) (args : ADetailerArgs)
    (image : Image) : I2I :=
  let pn := get_prompt p args
  let ss := get_seed p
  let wh := get_width_height p args
  let steps := get_steps p args
  let cfg_scale := get_cfg_scale p args
  let sampler_name :=
    if p.sampler_name = "PLMS" ∨ p.sampler_name = "UniPC" then "Euler"
    else p.sampler_name
  let i2i : I2I :=
    { init_images := [image]
      resize_mode := 0
      denoising_strength := args.ad_denoising_strength
      image_mask := none
      mask_blur := args.ad_mask_blur
      inpainting_fill := 1
      inpaint_full_res := args.ad_inpaint_full_res
      inpaint_full_res_padding := args.ad_inpaint_full_res_padding
      inpainting_mask_invert := 0
      sd_model := p.sd_model
      outpath_samples := p.outpath_samples
      outpath_grids := p.outpath_grids
      prompt := pn.1
      negative_prompt := pn.2
      styles := p.styles
      seed := ss.1
      subseed := ss.2
      subseed_strength := p.subseed_strength
      seed_resize_from_h := p.seed_resize_from_h
      seed_resize_from_w := p.seed_resize_from_w
      sampler_name := sampler_name
      batch_size := 1
      n_iter := 1
      steps := steps
      cfg_scale := cfg_scale
      width := wh.1
      height := wh.2
      tiling := p.tiling
      extra_generation_params := p.extra_generation_params
      do_not_save_samples := true
      do_not_save_grid := true
      scripts := script_filter opts p args
      script_args := p.script_args
      _disable_adetailer := true }
  if args.ad_controlnet_model ≠ "None" then update_controlnet_args env i2i args
  else i2i

/-- The message of `get_ad_model`'s `ValueError`. -/
def adModelNotFoundMsg (name : String) (model_mapping : List (String × String)) :
    String :=
  "[-] ADetailer: Model " ++ pyRepr name ++ " not found. Available models: " ++
    pyReprList (model_mapping.map Prod.fst)

/-- Source `get_ad_model(name)`: registry lookup; raises `ValueError` naming the
requested model and every registered name when absent. -/
def get_ad_model (env : Env) (name : String) : Except String String :=
  match (env.model_mapping.filter (fun kv => kv.1 = name)).head? with
  | none => .error (adModelNotFoundMsg name env.model_mapping)
  | some kv => .ok kv.2

/-- The test `args.ad_model.lower().startswith("mediapipe")`. -/
def is_mediapipe_model (name : String) : Bool :=
  pyStartsWith (pyLower name) "mediapipe"

/-- The detection step of `_postprocess_image` (lines choosing the
predictor and running it under `ChangeTorchLoad`, a torch-loader
monkeypatch with no bearing on the result): route to the
geometric-landmark backend for `mediapipe*` selectors, otherwise resolve
the model through the registry and call the generic-object backend with
the configured device. -/
def detect_stage (env : Env) (dev : String) (args : ADetailerArgs)
    (image : Image) : Except String PredictOutput :=
  if is_mediapipe_model args.ad_model then
    .ok (env.mediapipe_predict args.ad_model image args.ad_conf)
  else
    match get_ad_model env args.ad_model with
    | .error e => .error e
    | .ok ad_model => .ok (env.ultralytics_predict ad_model image args.ad_conf dev)

/-- The per-mask loop of `_postprocess_image`:

```
p2 = copy(i2i)
for j in range(steps):
    p2.image_mask = masks[j]
    processed = process_images(p2)
    p2 = copy(i2i)
    p2.init_images = [processed.images[0]]
    p2.seed = seed + j + 1
    p2.subseed = subseed + j + 1
```

Returns the jobs handed to the regeneration engine, in order, and the last
engine output (`none` iff the mask list was empty, i.e. `processed is
None`). -/
def inpaintLoop (engine : I2I → Image) (i2i : I2I) (seed subseed : Int) :
    List Mask → Nat → I2I → List I2I × Option Image
  | [], _, _ => ([], none)
  | m :: rest, j, p2 =>
    let job := { p2 with image_mask := some m }
    let out := engine job
    let next :=
      { i2i with
          init_images := [out]
          seed := seed + (j : Int) + 1
          subseed := subseed + (j : Int) + 1 }
    let r := inpaintLoop engine i2i seed subseed rest (j + 1) next
    (job :: r.1, some (r.2.getD out))

/-- Source `_postprocess_image(p, pp, args, n)`: one ArgumentSet for one image.
The first component is the ordered list of jobs handed to the regeneration
engine (reported on the error path too: an exception escaping the detector
aborts the stage before any engine call); the second is the outcome — the
new working image and the processed flag, or the propagated error.  The
saving of previews (`save_image`) is an external side effect with no
bearing on the returned state and is not modelled. -/
def _postprocess_image (env : Env) (dev : String) (opts : Opts) (p : P)
    (ppImage : Image) (args : ADetailerArgs) :
    List I2I × Except String (Image × Bool) :=
  let i2i := get_i2i_p env opts p args ppImage
  let ss := get_seed p
  match detect_stage env dev args ppImage with
  | .error e => ([], .error e)
  | .ok pred =>
    let masks := env.mask_preprocess pred.masks
    match masks with
    | [] => ([], .ok (ppImage, false))
    | _ =>
      let r := inpaintLoop env.engine i2i ss.1 ss.2 masks 0 i2i
      match r.2 with
      | some img => (r.1, .ok (img, true))
      | none => (r.1, .ok (ppImage, false))

/-- The message of `is_ad_enabled`'s `ValueError` (the dedented f-string;
the embedded `repr` of the raw inputs is abstracted to its leading text). -/
def notEnoughArgsMsg : String :=
  "[-] ADetailer: Not enough arguments passed to ADetailer."

/-- Source `is_ad_enabled(*args_)`: raise `ValueError` when no arguments were
passed, or when the only argument is the bare enable checkbox; otherwise
delegate to the external `enable_check`. -/
def is_ad_enabled (env : Env) (args_ : List AdRawArg) : Except String Bool :=
  if args_.length = 0 ∨
      (args_.length = 1 ∧ (args_.headD (.boolArg false)).isBool) then
    .error notEnoughArgsMsg
  else .ok (env.enable_check args_)

/-- The element-wise body of `get_args`: `ADetailerArgs(**arg_dict)` with
the script's error wrapping (the per-field dump appended to the
`ValidationError` message enumerates `ALL_ARGS`, an external table, and is
abstracted to the leading line). -/
def mkOneArg (env : Env) (n : Nat) : AdRawArg → Except String ADetailerArgs
  | .boolArg b =>
    .error ("[-] ADetailer: " ++ ordinal n ++ " - Non-mapping arguments are sent: "
      ++ (if b then "True" else "False"))
  | .mappingArg d =>
    match env.mkArgs d with
    | .error e =>
      .error ("[-] ADetailer: ValidationError when validating " ++ ordinal n
        ++ " arguments: " ++ e)
    | .ok inp => .ok inp

/-- Folding `mkOneArg` over the per-stage mappings (the `for n, arg_dict in
enumerate(args, 1)` loop). -/
def mkAllArgs (env : Env) (n : Nat) : List AdRawArg → Except String (List ADetailerArgs)
  | [] => .ok []
  | a :: rest =>
    match mkOneArg env n a with
    | .error e => .error e
    | .ok inp =>
      match mkAllArgs env (n + 1) rest with
      | .error e => .error e
      | .ok tail => .ok (inp :: tail)

/-- Source `get_args(*args_)`: drop the leading enable checkbox when present, then
validate each per-stage mapping into an `ADetailerArgs`. -/
def get_args (env : Env) (args_ : List AdRawArg) : Except String (List ADetailerArgs) :=
  let args :=
    match args_ with
    | .boolArg _ :: rest => rest
    | _ => args_
  mkAllArgs env 1 args

/-- Python `dict.update` on an association list with unique keys: existing
keys keep their position and take the new value, new keys are appended. -/
def dictUpdate (d upd : List (String × String)) : List (String × String) :=
  d.map (fun kv =>
    match (upd.filter (fun kv2 => kv2.1 = kv.1)).head? with
    | some kv2 => kv2
    | none => kv) ++
  upd.filter (fun kv2 => ¬ d.any (fun kv => kv.1 = kv2.1))

/-- Source `process(p, *args_)`: the first pipeline entry point.  Returns the
(possibly) updated context; on `p._disable_adetailer` it returns at once
without touching anything. -/
def process (env : Env) (p : P) (args_ : List AdRawArg) : Except String P :=
  if p._disable_adetailer then .ok p
  else
    match is_ad_enabled env args_ with
    | .error e => .error e
    | .ok enabled =>
      if enabled then
        match get_args env args_ with
        | .error e => .error e
        | .ok arg_list =>
          .ok { p with
                  extra_generation_params :=
                    dictUpdate p.extra_generation_params
                      (env.extra_params arg_list) }
      else .ok p

/-- The `for n, args in enumerate(arg_list)` loop of `postprocess_image`:
skip stages whose detector selector is `"None"`, thread the working image
through the stages, accumulate the engine calls (also up to a propagated
error) and the processed flag. -/
def stagesLoop (env : Env) (dev : String) (opts : Opts) (p : P) :
    List ADetailerArgs → Image → List I2I × Except String (Image × Bool)
  | [], img => ([], .ok (img, false))
  | args :: rest, img =>
    if args.ad_model = "None" then stagesLoop env dev opts p rest img
    else
      match _postprocess_image env dev opts p img args with
      | (calls, .error e) => (calls, .error e)
      | (calls, .ok r) =>
        match stagesLoop env dev opts p rest r.1 with
        | (calls2, .error e) => (calls ++ calls2, .error e)
        | (calls2, .ok r2) => (calls ++ calls2, .ok (r2.1, r.2 || r2.2))

/-- Source `postprocess_image(p, pp, *args_)`: the main pipeline entry point.  The
first component is the ordered list of regeneration-engine calls; the
second is the outcome — the updated context (image-index attribute
advanced) with the final working image, or the propagated error.  The two
image-saving side effects (`ad_save_images_before` snapshot, best-effort
`write_params_txt`) are external and have no bearing on the returned
state. -/
def postprocess_image (env : Env) (dev : String) (opts : Opts) (p : P)
    (ppImage : Image) (args_ : List AdRawArg) :
    List I2I × Except String (P × Image) :=
  if p._disable_adetailer then ([], .ok (p, ppImage))
  else
    match is_ad_enabled env args_ with
    | .error e => ([], .error e)
    | .ok enabled =>
      if ¬ enabled then ([], .ok (p, ppImage))
      else
        let i := (match p._idx with | none => 0 | some k => k + 1)
        let p := { p with _idx := some i }
        match get_args env args_ with
        | .error e => ([], .error e)
        | .ok arg_list =>
          match stagesLoop env dev opts p arg_list ppImage with
          | (calls, .error e) => (calls, .error e)
          | (calls, .ok r) => (calls, .ok (p, r.1))

/-! ## Concrete contexts used to exercise the definitions -/

/-- A baseline ArgumentSet with the UI defaults. -/
def argsA : ADetailerArgs :=
  { ad_model := "face_yolov8n.pt", ad_prompt := "", ad_negative_prompt := ""
    ad_conf := 30, ad_dilate_erode := 32, ad_x_offset := 0, ad_y_offset := 0
    ad_mask_blur := 4, ad_denoising_strength := 1
    ad_inpaint_full_res := true, ad_inpaint_full_res_padding := 0
    ad_use_inpaint_width_height := false, ad_inpaint_width := 512
    ad_inpaint_height := 512, ad_use_steps := false, ad_steps := 28
    ad_use_cfg_scale := false, ad_cfg_scale := 7
    ad_controlnet_model := "None", ad_controlnet_weight := 1 }

/-- A baseline processing context. -/
def pA : P :=
  { _idx := some 0, prompt := "base prompt", negative_prompt := "base negative"
    all_prompts := [], all_negative_prompts := [], seed := 1000, subseed := 2000
    all_seeds := [], all_subseeds := [], subseed_strength := 0
    seed_resize_from_h := 0, seed_resize_from_w := 0, sampler_name := "DPM++ 2M"
    steps := 20, cfg_scale := 7, width := 512, height := 512, styles := []
    tiling := false, sd_model := 0, outpath_samples := "", outpath_grids := ""
    extra_generation_params := []
    scripts_alwayson := ["controlnet", "soft_inpainting", "wildcards"]
    script_args := 0, _disable_adetailer := false }

/-- The default option values registered by the script. -/
def optsA : Opts :=
  { ad_only_seleted_scripts := true
    ad_script_names := "dynamic_prompting,dynamic_thresholding,wildcards,wildcard_recursive" }

/-- A baseline environment: the engine mints a fresh image from the job's
input image, the detectors report nothing, the registry holds one model. -/
def envA : Env :=
  { engine := fun j => j.init_images.headD 0 + 100
    mediapipe_predict := fun _ _ _ => { masks := [], preview := none }
    ultralytics_predict := fun _ _ _ _ => { masks := [], preview := none }
    mask_preprocess := fun l => l
    model_mapping := [("face_yolov8n.pt", "models/adetailer/face_yolov8n.pt")]
    mkArgs := fun _ => .ok argsA
    enable_check := fun _ => true
    extra_params := fun _ => []
    cn_update := fun _ x => x + 1 }

/-- An environment whose mediapipe backend reports two raw masks on every
image and whose generic backend reports one. -/
def envB : Env :=
  { envA with
      mediapipe_predict := fun _ _ _ => { masks := [21, 22], preview := some 9 }
      ultralytics_predict := fun _ _ _ _ => { masks := [31], preview := some 9 } }

/-- A mediapipe-backed ArgumentSet (resolved without the registry). -/
def argsM : ADetailerArgs := { argsA with ad_model := "mediapipe_face_full" }

/-- A second mediapipe-backed ArgumentSet for two-stage runs. -/
def aC2 : ADetailerArgs := { argsM with ad_model := "mediapipe_face_short" }

/-- An environment for a two-stage run: the first detector reports two raw
masks on every image, the second reports one; the two per-stage mappings
decode to `argsM` and `aC2`. -/
def envC : Env :=
  { envA with
      mkArgs := fun d => .ok (if d = [] then argsM else aC2)
      mediapipe_predict := fun name _ _ =>
        if name = "mediapipe_face_full" then { masks := [51, 52], preview := none }
        else { masks := [53], preview := none } }

/-- The raw argument vector of the two-stage run. -/
def rawC : List AdRawArg := [.boolArg true, .mappingArg [], .mappingArg [("k", "v")]]

/-- The two-stage run's context after the image-index increment. -/
def pC' : P := { pA with _idx := some 1 }

/-- Stage 1, mask 1 of the two-stage run. -/
def jC1 : I2I := { get_i2i_p envC optsA pC' argsM 7 with image_mask := some 51 }

/-- Engine output of `jC1`. -/
def oC1 : Image := envC.engine jC1

/-- Stage 1, mask 2 of the two-stage run. -/
def jC2 : I2I :=
  { get_i2i_p envC optsA pC' argsM 7 with
      init_images := [oC1]
      seed := (get_seed pC').1 + 1
      subseed := (get_seed pC').2 + 1
      image_mask := some 52 }

/-- Engine output of `jC2`. -/
def oC2 : Image := envC.engine jC2

/-- Stage 2, mask 1 of the two-stage run. -/
def jC3 : I2I := { get_i2i_p envC optsA pC' aC2 oC2 with image_mask := some 53 }

/-- Engine output of `jC3`. -/
def oC3 : Image := envC.engine jC3

/-! ## Helper lemmas -/

/-- The fields of the built sub-job that the ControlNet branch cannot touch
(`update_scripts_args` only rewrites the opaque `script_args` payload). -/
theorem get_i2i_p_fields (env : Env) (opts : Opts) (p : P) (args : ADetailerArgs)
    (image : Image) :
    (get_i2i_p env opts p args image).prompt = (get_prompt p args).1 ∧
    (get_i2i_p env opts p args image).negative_prompt = (get_prompt p args).2 ∧
    (get_i2i_p env opts p args image).seed = (get_seed p).1 ∧
    (get_i2i_p env opts p args image).subseed = (get_seed p).2 ∧
    (get_i2i_p env opts p args image).sampler_name =
      (if p.sampler_name = "PLMS" ∨ p.sampler_name = "UniPC" then "Euler"
       else p.sampler_name) ∧
    (get_i2i_p env opts p args image).init_images = [image] ∧
    (get_i2i_p env opts p args image).scripts = script_filter opts p args ∧
    (get_i2i_p env opts p args image)._disable_adetailer = true := by
  unfold get_i2i_p update_controlnet_args
  by_cases h : args.ad_controlnet_model ≠ "None" <;> simp [h]

/-- The three-way selection (`empty list` / `index in range` / `wraparound`)
used by `get_prompt` and `get_seed` collapses to a single modular lookup
with the scalar base value as the empty-list fallback. -/
theorem list_pick_eq {a : Type} [DecidableEq a] (l : List a) (i : Nat) (base d : a) :
    (if l = [] then base
     else if i < l.length then l.getD i d
     else l.getD (i % l.length) d) = l.getD (i % l.length) base := by
  by_cases h0 : l = []
  · subst h0; simp
  · have hlen : 0 < l.length := List.length_pos.mpr h0
    by_cases hi : i < l.length
    · rw [if_neg h0, if_pos hi, Nat.mod_eq_of_lt hi,
        List.getD_eq_getElem l d hi, List.getD_eq_getElem l base hi]
    · have hm : i % l.length < l.length := Nat.mod_lt _ hlen
      rw [if_neg h0, if_neg hi,
        List.getD_eq_getElem l d hm, List.getD_eq_getElem l base hm]

/-- Lemma `list_pick_eq` under a non-empty override, the shape of the two
components of `get_prompt`. -/
theorem pick_with_override (ov : String) (l : List String) (i : Nat) (base : String) :
    (if ov ≠ "" then ov
     else if l = [] then base
     else if i < l.length then l.getD i ""
     else l.getD (i % l.length) "") =
    (if ov ≠ "" then ov else l.getD (i % l.length) base) := by
  by_cases h : ov ≠ ""
  · rw [if_pos h, if_pos h]
  · rw [if_neg h, if_neg h]; exact list_pick_eq l i base ""

/-- Closed form of `get_prompt`. -/
theorem get_prompt_eq (p : P) (args : ADetailerArgs) :
    get_prompt p args =
      ((if args.ad_prompt ≠ "" then args.ad_prompt
        else p.all_prompts.getD (p.idx % p.all_prompts.length) p.prompt),
       (if args.ad_negative_prompt ≠ "" then args.ad_negative_prompt
        else p.all_negative_prompts.getD
          (p.idx % p.all_negative_prompts.length) p.negative_prompt)) := by
  unfold get_prompt
  rw [Prod.mk.injEq]
  exact ⟨pick_with_override _ _ _ _, pick_with_override _ _ _ _⟩

/-- Closed form of `get_seed`. -/
theorem get_seed_eq (p : P) :
    get_seed p =
      (p.all_seeds.getD (p.idx % p.all_seeds.length) p.seed,
       p.all_subseeds.getD (p.idx % p.all_subseeds.length) p.subseed) := by
  unfold get_seed
  rw [Prod.mk.injEq]
  exact ⟨list_pick_eq _ _ _ _, list_pick_eq _ _ _ _⟩

/-! ## Claims -/

/-- C4: every built regeneration job resolves its prompt as: the
ArgumentSet's non-empty override, else the per-image prompt list entry at
index `image index mod list length`, else the single base prompt; the
negative prompt and the seed/subseed pair are selected by the same
wraparound rule independently over their own lists (`getD` on the empty
list falls back to the scalar base value).  In particular, with a
3-element prompt list and image index 5 the entry at index `5 % 3 = 2` is
selected. -/
theorem C4_prompt_seed_selection :
    (∀ (env : Env) (opts : Opts) (p : P) (args : ADetailerArgs) (image : Image),
      (get_i2i_p env opts p args image).prompt =
        (if args.ad_prompt ≠ "" then args.ad_prompt
         else p.all_prompts.getD (p.idx % p.all_prompts.length) p.prompt) ∧
      (get_i2i_p env opts p args image).negative_prompt =
        (if args.ad_negative_prompt ≠ "" then args.ad_negative_prompt
         else p.all_negative_prompts.getD
           (p.idx % p.all_negative_prompts.length) p.negative_prompt) ∧
      (get_i2i_p env opts p args image).seed =
        p.all_seeds.getD (p.idx % p.all_seeds.length) p.seed ∧
      (get_i2i_p env opts p args image).subseed =
        p.all_subseeds.getD (p.idx % p.all_subseeds.length) p.subseed) ∧
    (get_i2i_p envA optsA
        { pA with all_prompts := ["pa", "pb", "pc"], _idx := some 5 }
        argsA 7).prompt = "pc" := by
  constructor
  · intro env opts p args image
    obtain ⟨h1, h2, h3, h4, -, -, -, -⟩ := get_i2i_p_fields env opts p args image
    rw [h1, h2, h3, h4, get_prompt_eq, get_seed_eq]
    exact ⟨rfl, rfl, rfl, rfl⟩
  · decide

/-- C7: the built job's sampler name is `"Euler"` when the parent's sampler
is one of the two legacy names `"PLMS"` / `"UniPC"`, is the parent's
sampler unchanged otherwise, and is never one of the two legacy names. -/
theorem C7_sampler_substitution :
    ∀ (env : Env) (opts : Opts) (p : P) (args : ADetailerArgs) (image : Image),
      (get_i2i_p env opts p args image).sampler_name =
        (if p.sampler_name = "PLMS" ∨ p.sampler_name = "UniPC" then "Euler"
         else p.sampler_name) ∧
      (get_i2i_p env opts p args image).sampler_name ≠ "PLMS" ∧
      (get_i2i_p env opts p args image).sampler_name ≠ "UniPC" := by
  intro env opts p args image
  obtain ⟨-, -, -, -, h, -, -, -⟩ := get_i2i_p_fields env opts p args image
  refine ⟨h, ?_, ?_⟩ <;> rw [h] <;>
    by_cases hs : p.sampler_name = "PLMS" ∨ p.sampler_name = "UniPC"
  · rw [if_pos hs]; decide
  · rw [if_neg hs]; exact fun hc => hs (Or.inl hc)
  · rw [if_pos hs]; decide
  · rw [if_neg hs]; exact fun hc => hs (Or.inr hc)

/-- C8 (amended): device selection returns the empty string (backend
auto-detection) on Darwin regardless of the constrained-memory flags — the
Darwin branch returns before the flags are consulted; on every other host
OS it returns `"cpu"` when `lowvram` or `medvram` is set and the empty
string otherwise. -/
theorem C8_device_policy :
    ∀ (system : String) (lowvram medvram : Bool),
      get_ultralytics_device system lowvram medvram =
        (if system = "Darwin" then ""
         else if lowvram || medvram then "cpu" else "") := by
  intro system lowvram medvram
  unfold get_ultralytics_device
  by_cases h : system = "Darwin" <;> simp [h]

/-- C8 counterexample: on Darwin with `lowvram` and `medvram` both set the
code returns the empty string, not `"cpu"` as the claim states. -/
theorem C8_counterexample :
    get_ultralytics_device "Darwin" true true ≠ "cpu" := by decide

/-- C5: every built sub-job carries the `_disable_adetailer` marker, and
both pipeline entry points, invoked on a context whose marker is set,
return immediately: no detection, no regeneration-engine call, no mutation
of the context or the working image. -/
theorem C5_recursion_guard :
    (∀ (env : Env) (opts : Opts) (p : P) (args : ADetailerArgs) (image : Image),
      (get_i2i_p env opts p args image)._disable_adetailer = true) ∧
    (∀ (env : Env) (p : P) (args_ : List AdRawArg),
      p._disable_adetailer = true → process env p args_ = .ok p) ∧
    (∀ (env : Env) (dev : String) (opts : Opts) (p : P) (ppImage : Image)
        (args_ : List AdRawArg),
      p._disable_adetailer = true →
      postprocess_image env dev opts p ppImage args_ = ([], .ok (p, ppImage))) := by
  refine ⟨?_, ?_, ?_⟩
  · intro env opts p args image
    exact (get_i2i_p_fields env opts p args image).2.2.2.2.2.2.2
  · intro env p args_ h
    unfold process
    rw [if_pos h]
  · intro env dev opts p ppImage args_ h
    unfold postprocess_image
    rw [if_pos h]

/-- C5 witness: the guard at work on concrete inputs. -/
theorem C5_witness :
    (get_i2i_p envA optsA pA argsA 7)._disable_adetailer = true ∧
    ({ pA with _disable_adetailer := true } : P)._disable_adetailer = true ∧
    process envA { pA with _disable_adetailer := true } [] =
      .ok { pA with _disable_adetailer := true } ∧
    postprocess_image envA "" optsA { pA with _disable_adetailer := true } 7 [] =
      ([], .ok ({ pA with _disable_adetailer := true }, 7)) :=
  ⟨C5_recursion_guard.1 envA optsA pA argsA 7,
   rfl,
   C5_recursion_guard.2.1 envA { pA with _disable_adetailer := true } [] rfl,
   C5_recursion_guard.2.2 envA "" optsA { pA with _disable_adetailer := true } 7 []
     rfl⟩

/-- C10: invoked with zero per-stage arguments, or with exactly one
argument that is the bare enable checkbox, the enabled-check raises its
`Not enough arguments` `ValueError`; it never reports either case as
merely disabled. -/
theorem C10_not_enough_arguments :
    ∀ (env : Env) (args_ : List AdRawArg),
      (args_.length = 0 ∨
        (args_.length = 1 ∧ (args_.headD (.boolArg false)).isBool = true)) →
      is_ad_enabled env args_ = .error notEnoughArgsMsg ∧
      ∀ b, is_ad_enabled env args_ ≠ .ok b := by
  intro env args_ h
  have he : is_ad_enabled env args_ = .error notEnoughArgsMsg := by
    unfold is_ad_enabled
    rw [if_pos h]
  exact ⟨he, fun b hb => by rw [he] at hb; exact Except.noConfusion hb⟩

/-- C10 witness: the guard fires on the empty argument list and on the
singleton boolean argument list. -/
theorem C10_witness :
    (([] : List AdRawArg).length = 0 ∨
      (([] : List AdRawArg).length = 1 ∧
        (([] : List AdRawArg).headD (.boolArg false)).isBool = true)) ∧
    ([AdRawArg.boolArg true].length = 0 ∨
      ([AdRawArg.boolArg true].length = 1 ∧
        ([AdRawArg.boolArg true].headD (.boolArg false)).isBool = true)) ∧
    is_ad_enabled envA [] = .error notEnoughArgsMsg ∧
    is_ad_enabled envA [AdRawArg.boolArg true] = .error notEnoughArgsMsg ∧
    is_ad_enabled envA [AdRawArg.boolArg true] ≠ .ok false :=
  ⟨Or.inl rfl, Or.inr ⟨rfl, rfl⟩,
   (C10_not_enough_arguments envA [] (Or.inl rfl)).1,
   (C10_not_enough_arguments envA [AdRawArg.boolArg true] (Or.inr ⟨rfl, rfl⟩)).1,
   (C10_not_enough_arguments envA [AdRawArg.boolArg true] (Or.inr ⟨rfl, rfl⟩)).2
     false⟩

/-- C6 counterexample: with allow-list `{"wildcards"}` and a ControlNet
model selected, a parent job with no active always-on extensions yields an
*empty* extension set — not `{"wildcards", "controlnet"}` as the claim
states for "every set of extensions active on the parent job beforehand".
The filter intersects with the parent's set; it does not add to it. -/
theorem C6_counterexample :
    ({ argsA with ad_controlnet_model := "control_v11p_sd15_inpaint" } :
        ADetailerArgs).ad_controlnet_model ≠ "None" ∧
    script_filter { ad_only_seleted_scripts := true, ad_script_names := "wildcards" }
        { pA with scripts_alwayson := [] }
        { argsA with ad_controlnet_model := "control_v11p_sd15_inpaint" } = [] ∧
    "wildcards" ∉
      script_filter { ad_only_seleted_scripts := true, ad_script_names := "wildcards" }
        { pA with scripts_alwayson := [] }
        { argsA with ad_controlnet_model := "control_v11p_sd15_inpaint" } :=
  ⟨by decide, by decide, by decide⟩

/-- C6 (amended): with allow-list `{"wildcards"}` and a ControlNet model
selected, the built job's active always-on extensions are exactly the
parent's extensions restricted to `{"wildcards", "controlnet"}` — so they
equal `{"wildcards", "controlnet"}` precisely when both were active on the
parent beforehand. -/
theorem C6_extension_filtering :
    ∀ (p : P) (args : ADetailerArgs),
      args.ad_controlnet_model ≠ "None" →
      script_filter { ad_only_seleted_scripts := true, ad_script_names := "wildcards" }
          p args =
        p.scripts_alwayson.filter
          (fun stem => stem == "wildcards" || stem == "controlnet") := by
  intro p args h
  have hstep :
      script_filter { ad_only_seleted_scripts := true, ad_script_names := "wildcards" }
          p args =
        List.filter
          (fun stem => (["controlnet", "wildcards", "wildcards"].contains stem))
          p.scripts_alwayson := by
    unfold script_filter
    rw [if_neg (by decide)]
    simp only [if_pos h]
    rfl
  rw [hstep]
  refine List.filter_congr ?_
  intro stem _
  by_cases h1 : stem = "controlnet"
  · subst h1; decide
  · by_cases h2 : stem = "wildcards"
    · subst h2; decide
    · have e1 : (stem == "controlnet") = false := beq_eq_false_iff_ne.mpr h1
      have e2 : (stem == "wildcards") = false := beq_eq_false_iff_ne.mpr h2
      simp [List.contains, List.elem, e1, e2]

/-- C6 witness: on a parent with `controlnet`, `soft_inpainting` and
`wildcards` active, the filter keeps exactly `controlnet` and
`wildcards`. -/
theorem C6_witness :
    ({ argsA with ad_controlnet_model := "control_v11p_sd15_inpaint" } :
        ADetailerArgs).ad_controlnet_model ≠ "None" ∧
    script_filter { ad_only_seleted_scripts := true, ad_script_names := "wildcards" }
        pA { argsA with ad_controlnet_model := "control_v11p_sd15_inpaint" } =
      pA.scripts_alwayson.filter
        (fun stem => stem == "wildcards" || stem == "controlnet") :=
  ⟨by decide,
   C6_extension_filtering pA
     { argsA with ad_controlnet_model := "control_v11p_sd15_inpaint" }
     (by decide)⟩

/-- C9: a detector name that is not a mediapipe selector and is absent from
the model registry makes the stage fail with the registry `ValueError`
before any regeneration-engine call (the call list is empty), and the error
message carries both the requested name and the full list of registered
model names. -/
theorem C9_unknown_model_error :
    ∀ (env : Env) (dev : String) (opts : Opts) (p : P) (image : Image)
      (args : ADetailerArgs),
      is_mediapipe_model args.ad_model = false →
      (env.model_mapping.map Prod.fst).contains args.ad_model = false →
      _postprocess_image env dev opts p image args =
        ([], .error (adModelNotFoundMsg args.ad_model env.model_mapping)) ∧
      adModelNotFoundMsg args.ad_model env.model_mapping =
        "[-] ADetailer: Model " ++ pyRepr args.ad_model ++
          " not found. Available models: " ++
          pyReprList (env.model_mapping.map Prod.fst) := by
  intro env dev opts p image args hmp habs
  refine ⟨?_, rfl⟩
  have hfil : env.model_mapping.filter (fun kv => kv.1 = args.ad_model) = [] := by
    rw [List.filter_eq_nil_iff]
    intro kv hkv hne
    have hne' : kv.1 = args.ad_model := of_decide_eq_true hne
    have hmem : args.ad_model ∈ env.model_mapping.map Prod.fst :=
      hne' ▸ List.mem_map_of_mem Prod.fst hkv
    have hc : (env.model_mapping.map Prod.fst).contains args.ad_model = true :=
      List.elem_eq_true_of_mem hmem
    rw [habs] at hc
    exact Bool.noConfusion hc
  unfold _postprocess_image detect_stage get_ad_model
  rw [hmp]
  simp only [hfil, List.head?, Bool.false_eq_true, if_false, ite_false]

/-- C9 witness: requesting `hand_yolov8n.pt` against a registry holding
only `face_yolov8n.pt` aborts the stage with the lookup error and zero
engine calls. -/
theorem C9_witness :
    is_mediapipe_model
        ({ argsA with ad_model := "hand_yolov8n.pt" } : ADetailerArgs).ad_model =
      false ∧
    (envA.model_mapping.map Prod.fst).contains
        ({ argsA with ad_model := "hand_yolov8n.pt" } : ADetailerArgs).ad_model =
      false ∧
    _postprocess_image envA "" optsA pA 7 { argsA with ad_model := "hand_yolov8n.pt" } =
      ([], .error (adModelNotFoundMsg "hand_yolov8n.pt" envA.model_mapping)) :=
  ⟨by decide, by decide,
   (C9_unknown_model_error envA "" optsA pA 7
     { argsA with ad_model := "hand_yolov8n.pt" } (by decide) (by decide)).1⟩

/-- The engine calls issued by the mask loop carry seeds `S + j, S + j + 1,
…` and subseeds `T + j, T + j + 1, …` whenever the loop is entered with a
job whose seed/subseed is `S + j` / `T + j` (the loop re-bases every
subsequent job on `copy(i2i)` with `seed + j + 1`). -/
theorem inpaintLoop_spec (engine : I2I → Image) (i2i : I2I) (S T : Int) :
    ∀ (masks : List Mask) (j : Nat) (p2 : I2I),
      p2.seed = S + j → p2.subseed = T + j →
      ((inpaintLoop engine i2i S T masks j p2).1.map I2I.seed =
        (List.range masks.length).map (fun k => S + ((j + k : Nat) : Int))) ∧
      ((inpaintLoop engine i2i S T masks j p2).1.map I2I.subseed =
        (List.range masks.length).map (fun k => T + ((j + k : Nat) : Int))) := by
  intro masks
  induction masks with
  | nil => intro j p2 h1 h2; simp [inpaintLoop]
  | cons m rest ih =>
    intro j p2 h1 h2
    obtain ⟨ihs, ihss⟩ :=
      ih (j + 1)
        { i2i with
            init_images := [engine { p2 with image_mask := some m }]
            seed := S + (j : Int) + 1
            subseed := T + (j : Int) + 1 }
        (by push_cast; ring) (by push_cast; ring)
    constructor
    · simp only [inpaintLoop, List.map_cons, List.length_cons]
      rw [List.range_succ_eq_map, List.map_cons, List.map_map, ihs]
      simp only [List.cons.injEq]
      constructor
      · simpa using h1
      · refine List.map_congr_left ?_
        intro k _
        simp only [Function.comp]
        congr 1
        omega
    · simp only [inpaintLoop, List.map_cons, List.length_cons]
      rw [List.range_succ_eq_map, List.map_cons, List.map_map, ihss]
      simp only [List.cons.injEq]
      constructor
      · simpa using h2
      · refine List.map_congr_left ?_
        intro k _
        simp only [Function.comp]
        congr 1
        omega

/-- C1: when detection yields `M ≥ 1` masks, the `M` regeneration jobs
issued within the ArgumentSet carry seeds `S, S+1, …, S+M-1` and subseeds
`T, T+1, …, T+M-1`, where `(S, T)` is the seed/subseed pair selected for
the current image, and the stage reports the image as processed. -/
theorem C1_seed_advancement :
    ∀ (env : Env) (dev : String) (opts : Opts) (p : P) (image : Image)
      (args : ADetailerArgs) (pred : PredictOutput) (m : Mask) (rest : List Mask),
      detect_stage env dev args image = .ok pred →
      env.mask_preprocess pred.masks = m :: rest →
      ((_postprocess_image env dev opts p image args).1.map I2I.seed =
        (List.range (m :: rest).length).map
          (fun (k : Nat) => (get_seed p).1 + (k : Int))) ∧
      ((_postprocess_image env dev opts p image args).1.map I2I.subseed =
        (List.range (m :: rest).length).map
          (fun (k : Nat) => (get_seed p).2 + (k : Int))) ∧
      ((_postprocess_image env dev opts p image args).2.map (fun r => r.2) =
        .ok true) := by
  intro env dev opts p image args pred m rest hdet hmasks
  have hfields := get_i2i_p_fields env opts p args image
  have h1 : (get_i2i_p env opts p args image).seed =
      (get_seed p).1 + ((0 : Nat) : Int) := by
    rw [hfields.2.2.1]; simp
  have h2 : (get_i2i_p env opts p args image).subseed =
      (get_seed p).2 + ((0 : Nat) : Int) := by
    rw [hfields.2.2.2.1]; simp
  obtain ⟨hs, hss⟩ :=
    inpaintLoop_spec env.engine (get_i2i_p env opts p args image)
      (get_seed p).1 (get_seed p).2 (m :: rest) 0
      (get_i2i_p env opts p args image) h1 h2
  have hsome :
      ∃ img, (inpaintLoop env.engine (get_i2i_p env opts p args image)
        (get_seed p).1 (get_seed p).2 (m :: rest) 0
        (get_i2i_p env opts p args image)).2 = some img := by
    simp [inpaintLoop]
  obtain ⟨img0, himg⟩ := hsome
  unfold _postprocess_image
  rw [hdet]
  simp only [hmasks, himg]
  refine ⟨?_, ?_, rfl⟩
  · rw [hs]
    refine List.map_congr_left ?_
    intro k _
    simp
  · rw [hss]
    refine List.map_congr_left ?_
    intro k _
    simp

/-- C1 witness: two mediapipe masks on image 7 with base seeds
`(1000, 2000)` produce two engine calls with seeds `1000, 1001` and
subseeds `2000, 2001`. -/
theorem C1_witness :
    detect_stage envB "" argsM 7 = .ok { masks := [21, 22], preview := some 9 } ∧
    envB.mask_preprocess [21, 22] = 21 :: [22] ∧
    ((_postprocess_image envB "" optsA pA 7 argsM).1.map I2I.seed =
      (List.range (21 :: [22]).length).map
        (fun (k : Nat) => (get_seed pA).1 + (k : Int))) ∧
    ((_postprocess_image envB "" optsA pA 7 argsM).1.map I2I.subseed =
      (List.range (21 :: [22]).length).map
        (fun (k : Nat) => (get_seed pA).2 + (k : Int))) ∧
    ((_postprocess_image envB "" optsA pA 7 argsM).2.map (fun r => r.2) =
      .ok true) := by
  have h := C1_seed_advancement envB "" optsA pA 7 argsM
    { masks := [21, 22], preview := some 9 } 21 [22] (by decide) (by decide)
  exact ⟨by decide, by decide, h.1, h.2.1, h.2.2⟩

/-- A stage whose detection yields no masks leaves the working image
untouched and issues no engine call; chaining such stages leaves the whole
loop a no-op. -/
theorem stagesLoop_nothing (env : Env) (dev : String) (opts : Opts) (p : P)
    (img : Image) :
    ∀ (l : List ADetailerArgs),
      (∀ args ∈ l, args.ad_model ≠ "None" →
        ∃ pred, detect_stage env dev args img = .ok pred ∧
          env.mask_preprocess pred.masks = []) →
      stagesLoop env dev opts p l img = ([], .ok (img, false)) := by
  intro l
  induction l with
  | nil => intro _; simp [stagesLoop]
  | cons a rest ih =>
    intro h
    by_cases ha : a.ad_model = "None"
    · simp only [stagesLoop, if_pos ha]
      exact ih (fun args hm => h args (List.mem_cons_of_mem a hm))
    · obtain ⟨pred, hdet, hmp⟩ := h a (List.mem_cons_self a rest) ha
      have hpp : _postprocess_image env dev opts p img a = ([], .ok (img, false)) := by
        unfold _postprocess_image
        rw [hdet]
        simp only [hmp]
      simp only [stagesLoop, if_neg ha, hpp]
      rw [ih (fun args hm => h args (List.mem_cons_of_mem a hm))]
      simp

/-- C3: when detection yields an empty mask sequence for every configured
ArgumentSet, the pipeline returns the input image unchanged (only the
image-index attribute advances), issues zero regeneration-engine calls, and
raises no error — each empty stage is a logged no-op and processing
advances to the next stage. -/
theorem C3_nothing_detected :
    ∀ (env : Env) (dev : String) (opts : Opts) (p : P) (img : Image)
      (args_ : List AdRawArg) (arg_list : List ADetailerArgs),
      p._disable_adetailer = false →
      is_ad_enabled env args_ = .ok true →
      get_args env args_ = .ok arg_list →
      (∀ args ∈ arg_list, args.ad_model ≠ "None" →
        ∃ pred, detect_stage env dev args img = .ok pred ∧
          env.mask_preprocess pred.masks = []) →
      postprocess_image env dev opts p img args_ =
        ([], .ok ({ p with
          _idx := some (match p._idx with | none => 0 | some k => k + 1) }, img)) := by
  intro env dev opts p img args_ arg_list hdis hen hga hdet
  unfold postprocess_image
  rw [if_neg (by simp [hdis]), hen]
  simp only [not_true, ite_false, if_neg]
  simp only [hga]
  rw [stagesLoop_nothing env dev opts
    { p with _idx := some (match p._idx with | none => 0 | some k => k + 1) }
    img arg_list hdet]

/-- C3 witness: one stage backed by a detector that reports nothing — the
output image equals the input image `7`, the call list is empty and the
result is not an error. -/
theorem C3_witness :
    pA._disable_adetailer = false ∧
    is_ad_enabled envA [.boolArg true, .mappingArg []] = .ok true ∧
    get_args envA [.boolArg true, .mappingArg []] = .ok [argsA] ∧
    postprocess_image envA "" optsA pA 7 [.boolArg true, .mappingArg []] =
      ([], .ok ({ pA with _idx := some 1 }, 7)) := by
  have hdet : ∀ args ∈ [argsA], args.ad_model ≠ "None" →
      ∃ pred, detect_stage envA "" args 7 = .ok pred ∧
        envA.mask_preprocess pred.masks = [] := by
    intro args hm _
    have : args = argsA := by simpa using hm
    subst this
    exact ⟨{ masks := [], preview := none }, by decide, by decide⟩
  refine ⟨rfl, by decide, by decide, ?_⟩
  exact C3_nothing_detected envA "" optsA pA 7 [.boolArg true, .mappingArg []]
    [argsA] rfl (by decide) (by decide) hdet

/-- A stage whose detection yields exactly two masks issues exactly two
engine calls: the first against the stage's input image, the second against
the first call's output, with seed/subseed advanced by one. -/
theorem stage_two_masks (env : Env) (dev : String) (opts : Opts) (q : P)
    (img : Image) (a : ADetailerArgs) (pr : PredictOutput) (m1 m2 : Mask)
    (hdet : detect_stage env dev a img = .ok pr)
    (hmask : env.mask_preprocess pr.masks = [m1, m2]) :
    _postprocess_image env dev opts q img a =
      ([{ get_i2i_p env opts q a img with image_mask := some m1 },
        { get_i2i_p env opts q a img with
            init_images :=
              [env.engine { get_i2i_p env opts q a img with image_mask := some m1 }]
            seed := (get_seed q).1 + 1
            subseed := (get_seed q).2 + 1
            image_mask := some m2 }],
       .ok (env.engine { get_i2i_p env opts q a img with
            init_images :=
              [env.engine { get_i2i_p env opts q a img with image_mask := some m1 }]
            seed := (get_seed q).1 + 1
            subseed := (get_seed q).2 + 1
            image_mask := some m2 }, true)) := by
  unfold _postprocess_image
  rw [hdet]
  simp only [hmask]
  simp only [inpaintLoop, Option.getD_none, Option.getD_some]
  simp [Nat.cast_zero, add_zero]

/-- A stage whose detection yields exactly one mask issues exactly one
engine call, against the stage's input image. -/
theorem stage_one_mask (env : Env) (dev : String) (opts : Opts) (q : P)
    (img : Image) (a : ADetailerArgs) (pr : PredictOutput) (m : Mask)
    (hdet : detect_stage env dev a img = .ok pr)
    (hmask : env.mask_preprocess pr.masks = [m]) :
    _postprocess_image env dev opts q img a =
      ([{ get_i2i_p env opts q a img with image_mask := some m }],
       .ok (env.engine { get_i2i_p env opts q a img with image_mask := some m },
         true)) := by
  unfold _postprocess_image
  rw [hdet]
  simp only [hmask]
  simp only [inpaintLoop, Option.getD_none, Option.getD_some]

/-- C2: with two ArgumentSets whose detections yield two masks and one mask
respectively, exactly three regeneration-engine calls occur, ordered
(stage 1, mask 1), (stage 1, mask 2), (stage 2, mask 1); the first call
consumes the source image and every later call consumes exactly the
previous call's output image; the final output is the third call's
output. -/
theorem C2_two_stage_threading :
    ∀ (env : Env) (dev : String) (opts : Opts) (p : P) (img : Image)
      (args_ : List AdRawArg) (a1 a2 : ADetailerArgs)
      (pr1 pr2 : PredictOutput) (m1 m2 m3 : Mask)
      (p' : P) (j1 j2 j3 : I2I) (o1 o2 o3 : Image),
      p._disable_adetailer = false →
      is_ad_enabled env args_ = .ok true →
      get_args env args_ = .ok [a1, a2] →
      a1.ad_model ≠ "None" →
      a2.ad_model ≠ "None" →
      p' = { p with
        _idx := some (match p._idx with | none => 0 | some k => k + 1) } →
      j1 = { get_i2i_p env opts p' a1 img with image_mask := some m1 } →
      o1 = env.engine j1 →
      j2 = { get_i2i_p env opts p' a1 img with
        init_images := [o1]
        seed := (get_seed p').1 + 1
        subseed := (get_seed p').2 + 1
        image_mask := some m2 } →
      o2 = env.engine j2 →
      j3 = { get_i2i_p env opts p' a2 o2 with image_mask := some m3 } →
      o3 = env.engine j3 →
      detect_stage env dev a1 img = .ok pr1 →
      env.mask_preprocess pr1.masks = [m1, m2] →
      detect_stage env dev a2 o2 = .ok pr2 →
      env.mask_preprocess pr2.masks = [m3] →
      postprocess_image env dev opts p img args_ = ([j1, j2, j3], .ok (p', o3)) ∧
      j1.init_images = [img] ∧
      j2.init_images = [o1] ∧
      j3.init_images = [o2] := by
  intro env dev opts p img args_ a1 a2 pr1 pr2 m1 m2 m3 p' j1 j2 j3 o1 o2 o3
  intro hdis hen hga hn1 hn2 hp' hj1 ho1 hj2 ho2 hj3 ho3 hdet1 hmask1 hdet2 hmask2
  subst hp' hj1 ho1 hj2 ho2 hj3 ho3
  refine ⟨?_, (get_i2i_p_fields env opts _ a1 img).2.2.2.2.2.1, rfl,
    (get_i2i_p_fields env opts _ a2 _).2.2.2.2.2.1⟩
  unfold postprocess_image
  rw [if_neg (by simp [hdis]), hen]
  simp only [not_true, ite_false, if_neg]
  simp only [hga]
  simp only [stagesLoop, if_neg hn1, if_neg hn2,
    stage_two_masks env dev opts _ img a1 pr1 m1 m2 hdet1 hmask1,
    stage_one_mask env dev opts _ _ a2 pr2 m3 hdet2 hmask2]
  simp

/-- C2 witness: a concrete two-stage run — three engine calls in stage
order, each consuming the previous output. -/
theorem C2_witness :
    pA._disable_adetailer = false ∧
    is_ad_enabled envC rawC = .ok true ∧
    get_args envC rawC = .ok [argsM, aC2] ∧
    detect_stage envC "" argsM 7 = .ok { masks := [51, 52], preview := none } ∧
    envC.mask_preprocess [51, 52] = [51, 52] ∧
    detect_stage envC "" aC2 oC2 = .ok { masks := [53], preview := none } ∧
    envC.mask_preprocess [53] = [53] ∧
    postprocess_image envC "" optsA pA 7 rawC = ([jC1, jC2, jC3], .ok (pC', oC3)) ∧
    jC1.init_images = [7] ∧
    jC2.init_images = [oC1] ∧
    jC3.init_images = [oC2] := by
  have h := C2_two_stage_threading envC "" optsA pA 7 rawC argsM aC2
    { masks := [51, 52], preview := none } { masks := [53], preview := none }
    51 52 53 pC' jC1 jC2 jC3 oC1 oC2 oC3
    rfl (by decide) (by decide) (by decide) (by decide)
    (by decide) rfl rfl rfl rfl rfl rfl
    (by decide) (by decide) (by decide) (by decide)
  exact ⟨rfl, by decide, by decide, by decide, by decide, by decide, by decide,
    h.1, h.2.1, h.2.2.1, h.2.2.2⟩
